import Mathlib

/-!
Verification of the image compositing pipeline of the photo-edit widget
(`src/src/app/page.tsx`, component `PhotoEditor`).

The pipeline `createFinalImage` is embedded shallowly: JavaScript numbers
are modelled as exact rationals, the 2D canvas is modelled both as a trace
of drawing commands (each recording the transform in effect when it was
issued) and as an alpha value per point of the output plane.  Ambient
browser facilities that the component calls into — text measurement,
glyph rasterisation, and the trigonometric rotation action of the
context — are parameters of the model (`CanvasEnv`), and the theorems
hold for every environment.
-/

namespace PhotoEdit

/-- Crop rectangle in source-pixel coordinates, the source interface
`CroppedAreaPixels` with fields `x`, `y`, `width`, `height`. -/
structure CroppedAreaPixels where
  x : ℚ
  y : ℚ
  width : ℚ
  height : ℚ
deriving DecidableEq

/-- Crop shape, the source union type of the two strings rect and round. -/
inductive CropShape where
  | rect
  | round
deriving DecidableEq

/-- Calendar date as read off a JavaScript `Date`: the source uses
`getFullYear`, the 0-based `getMonth`, and `getDate`. -/
structure JSDate where
  year : Nat
  month0 : Nat
  day : Nat
deriving DecidableEq

/-- Embedding of the JavaScript conversion `String(n)` of a natural
number to its decimal representation. -/
def jsString (n : Nat) : String := Nat.repr n

/-- Embedding of `padStart(2, "0")` on a string: pad with zeros on the
left up to length two, leave longer strings unchanged. -/
def padStart2 (s : String) : String :=
  if s.length < 2 then String.mk (List.replicate (2 - s.length) '0') ++ s else s

/-- The source function `formatDate`: year, slash, zero-padded 1-based
month, slash, zero-padded day. -/
def formatDate (d : JSDate) : String :=
  jsString d.year ++ "/" ++ padStart2 (jsString (d.month0 + 1)) ++ "/" ++ padStart2 (jsString d.day)

/-- Responsive font size of the date label, the source expression
`Math.min(canvas.width * 0.05, 32)`. -/
def fontSize (w : ℚ) : ℚ := min (w * 0.05) 32

/-- Label padding, the source expression `fontSize * 0.75`. -/
def padding (w : ℚ) : ℚ := fontSize w * 0.75

/-- Placement of the date label on a canvas of width `w` and height `h`
with measured text width `tw`: exactly the arguments the source passes to
`fillRect` (background box) and `fillText` (text origin). -/
structure LabelLayout where
  boxX : ℚ
  boxY : ℚ
  boxW : ℚ
  boxH : ℚ
  textX : ℚ
  textY : ℚ
deriving DecidableEq

/-- The label layout computed by `createFinalImage`:
`fillRect(padding, h - (fontSize + padding*2), textWidth + padding*2,
fontSize + padding*2)` and `fillText(dateText, padding*2, h - padding)`. -/
def labelLayout (w h tw : ℚ) : LabelLayout :=
  ⟨padding w, h - (fontSize w + padding w * 2), tw + padding w * 2,
   fontSize w + padding w * 2, padding w * 2, h - padding w⟩

/-- Alpha channel of a decoded source image, sampled at a point in
source coordinates.  The pixel contents are otherwise opaque. -/
abbrev SourceImage := ℚ × ℚ → ℚ

/-- Ambient canvas facilities used by the pipeline: `measureText` (given
the font size in effect and the text), the glyph coverage produced by
`fillText` (font size, text, text origin, queried point), and the action
of `ctx.rotate` by an angle given in degrees on a point, rotating about
the origin.  All results are quantified over every environment. -/
structure CanvasEnv where
  measureText : ℚ → String → ℚ
  glyph : ℚ → String → ℚ × ℚ → ℚ × ℚ → ℚ
  rotI : ℚ → ℚ × ℚ → ℚ × ℚ

/-- Alpha of the rotated cropped draw (`ctx.drawImage` under the
translate-rotate-translate transform): the output point `p` shows the
source sample at the crop origin plus the inverse center rotation of
`p`.  The source rectangle and the destination rectangle have identical
dimensions, so no scaling is applied. -/
def drawnLayer (env : CanvasEnv) (img : SourceImage) (crop : CroppedAreaPixels) (rot : ℚ)
    (p : ℚ × ℚ) : ℚ :=
  let cx := crop.width / 2
  let cy := crop.height / 2
  let q := env.rotI (-rot) (p.1 - cx, p.2 - cy)
  img (crop.x + (q.1 + cx), crop.y + (q.2 + cy))

/-- Membership in the clip disc recorded by
`ctx.arc(w/2, h/2, min(w, h)/2, 0, 2π)`. -/
def insideCircle (w h : ℚ) (p : ℚ × ℚ) : Prop :=
  (p.1 - w / 2) ^ 2 + (p.2 - h / 2) ^ 2 ≤ (min w h / 2) ^ 2

instance (w h : ℚ) (p : ℚ × ℚ) : Decidable (insideCircle w h p) := by
  unfold insideCircle; infer_instance

/-- The circular mask stage: for shape round, the source fills the clip
disc under `globalCompositeOperation = destination-in`, so destination
alpha survives only inside the disc and is zeroed outside; for shape
rect no mask is applied. -/
def maskStage (w h : ℚ) (shape : CropShape) (layer : ℚ × ℚ → ℚ) : ℚ × ℚ → ℚ :=
  match shape with
  | .rect => layer
  | .round => fun p => if insideCircle w h p then layer p else 0

/-- Canvas alpha after the draw and the optional mask, before the date
label is painted. -/
def preLabelAlpha (env : CanvasEnv) (img : SourceImage) (crop : CroppedAreaPixels) (rot : ℚ)
    (shape : CropShape) : ℚ × ℚ → ℚ :=
  maskStage crop.width crop.height shape (drawnLayer env img crop rot)

/-- The label stage: the background box `rgba(0,0,0,0.7)` is painted
source-over inside the layout box, then the white text with glyph
coverage `g` is painted source-over on top. -/
def labelStage (w h tw : ℚ) (g : ℚ × ℚ → ℚ) (layer : ℚ × ℚ → ℚ) : ℚ × ℚ → ℚ :=
  fun p =>
    let L := labelLayout w h tw
    let boxed := if L.boxX ≤ p.1 ∧ p.1 ≤ L.boxX + L.boxW ∧ L.boxY ≤ p.2 ∧ p.2 ≤ L.boxY + L.boxH
      then 0.7 + 0.3 * layer p else layer p
    g p + (1 - g p) * boxed

/-- The output canvas: dimensions plus alpha per point. -/
structure Canvas where
  width : ℚ
  height : ℚ
  alpha : ℚ × ℚ → ℚ

/-- Result of `canvas.toDataURL` applied to the output canvas: the mime
type requested together with the encoded pixels. -/
structure EncodedImage where
  mime : String
  canvas : Canvas

/-- The composite produced by one successful run of `createFinalImage`:
canvas sized to the crop rectangle, rotated draw of the crop, optional
circular mask, label box and label text, encoded with
`toDataURL(image/png)`. -/
def compositeResult (env : CanvasEnv) (img : SourceImage) (crop : CroppedAreaPixels) (rot : ℚ)
    (shape : CropShape) (d : JSDate) : EncodedImage :=
  let w := crop.width
  let h := crop.height
  let text := formatDate d
  let tw := env.measureText (fontSize w) text
  let L := labelLayout w h tw
  ⟨"image/png",
   ⟨w, h,
    labelStage w h tw (env.glyph (fontSize w) text (L.textX, L.textY))
      (preLabelAlpha env img crop rot shape)⟩⟩

/-- The component state that `createFinalImage` reads and writes. -/
structure EditorState where
  imageSrc : Option SourceImage
  croppedAreaPixels : Option CroppedAreaPixels
  selectedDate : Option JSDate
  cropShape : CropShape
  rotation : ℚ
  finalImage : Option EncodedImage

/-- The source function `createFinalImage`: it returns without touching
anything when the image, the crop selection or the date is missing
(`if (!imageSrc || !croppedAreaPixels || !selectedDate) return`), and
otherwise replaces `finalImage` with a fresh composite.  No other
validation of the crop rectangle is performed. -/
def createFinalImage (env : CanvasEnv) (s : EditorState) : EditorState :=
  match s.imageSrc, s.croppedAreaPixels, s.selectedDate with
  | some img, some crop, some d =>
      { s with finalImage := some (compositeResult env img crop s.rotation s.cropShape d) }
  | _, _, _ => s

/-- Replacement of every slash by a dash, the embedding of the global
single-character regex replacement the source applies to the date text
in the download attribute. -/
def slashToDash (s : String) : String :=
  String.mk (s.data.map fun c => if c = '/' then '-' else c)

/-- The `download` attribute of the save link: `photo_` followed by the
dashed date text, or by the fallback token `edited` when no date is
selected, followed by `.png`. -/
def downloadName (selectedDate : Option JSDate) : String :=
  "photo_" ++ (match selectedDate with
    | some d => slashToDash (formatDate d)
    | none => "edited") ++ ".png"

/-- A sample environment: constant text metrics, no glyph coverage, and
the identity interpretation of rotation. -/
def envId : CanvasEnv := ⟨fun _ _ => 10, fun _ _ _ _ => 0, fun _ p => p⟩

/-- Claim C3: the output canvas dimensions equal the crop rectangle
dimensions, for every rotation angle, crop shape, date, image and
environment. -/
theorem c3_output_dims (env : CanvasEnv) (img : SourceImage) (crop : CroppedAreaPixels)
    (rot : ℚ) (shape : CropShape) (d : JSDate) :
    (compositeResult env img crop rot shape d).canvas.width = crop.width ∧
    (compositeResult env img crop rot shape d).canvas.height = crop.height :=
  ⟨rfl, rfl⟩

/-- Claim C5: the label font size is the minimum of five percent of the
output width and 32, the padding is three quarters of the font size, and
in particular width 100 gives font size 5 and width 1000 gives 32. -/
theorem c5_font_scaling :
    (∀ w : ℚ, fontSize w = min (w * (5 / 100)) 32) ∧
    (∀ w : ℚ, padding w = fontSize w * (3 / 4)) ∧
    fontSize 100 = 5 ∧ fontSize 1000 = 32 := by
  refine ⟨fun w => ?_, fun w => ?_, ?_, ?_⟩ <;>
    norm_num [fontSize, padding, min_def]

/-- Claim C10: when no date is selected, the download file name falls
back to exactly photo_edited.png. -/
theorem c10_fallback_name : downloadName none = "photo_edited.png" := rfl

/-- Zero padding to two digits as the specification words it: numbers
below ten get a single leading zero, two-digit numbers are unchanged. -/
def pad2Spec (n : Nat) : String := if n < 10 then "0" ++ jsString n else jsString n

/-- The padStart embedding agrees with the worded two-digit zero padding
on all numbers below one hundred. -/
theorem padStart2_eq_pad2Spec : ∀ n < 100, padStart2 (jsString n) = pad2Spec n := by decide

/-- The two-digit zero padding always yields two characters on numbers
below one hundred. -/
theorem pad2Spec_length : ∀ n < 100, (pad2Spec n).length = 2 := by decide

/-- Claim C6: the formatted date text is the year, a slash, the 1-based
month zero-padded to two digits, a slash, and the day zero-padded to two
digits; both padded components have exactly two characters, and the date
2024-03-07 formats to exactly 2024/03/07. -/
theorem c6_date_format (d : JSDate) (hm : d.month0 + 1 < 100) (hd : d.day < 100) :
    formatDate d = jsString d.year ++ "/" ++ pad2Spec (d.month0 + 1) ++ "/" ++ pad2Spec d.day ∧
    (pad2Spec (d.month0 + 1)).length = 2 ∧ (pad2Spec d.day).length = 2 ∧
    formatDate ⟨2024, 2, 7⟩ = "2024/03/07" := by
  refine ⟨?_, pad2Spec_length _ hm, pad2Spec_length _ hd, by decide⟩
  unfold formatDate
  rw [padStart2_eq_pad2Spec _ hm, padStart2_eq_pad2Spec _ hd]

/-- Witness for C6 at the concrete date 2024-03-07 (month0 = 2). -/
theorem c6_date_format_witness :
    formatDate ⟨2024, 2, 7⟩ = jsString 2024 ++ "/" ++ pad2Spec 3 ++ "/" ++ pad2Spec 7 ∧
    (pad2Spec 3).length = 2 ∧ (pad2Spec 7).length = 2 ∧
    formatDate ⟨2024, 2, 7⟩ = "2024/03/07" :=
  c6_date_format ⟨2024, 2, 7⟩ (by decide) (by decide)

/-- Claim C8: the composite is PNG-encoded, and the download file name is
photo_ followed by the date text with every slash replaced by a dash,
followed by .png; the date 2024-03-07 yields photo_2024-03-07.png. -/
theorem c8_download_png :
    (∀ d : JSDate, downloadName (some d) = "photo_" ++ slashToDash (formatDate d) ++ ".png") ∧
    downloadName (some ⟨2024, 2, 7⟩) = "photo_2024-03-07.png" ∧
    (∀ (env : CanvasEnv) (img : SourceImage) (crop : CroppedAreaPixels) (rot : ℚ)
      (shape : CropShape) (d : JSDate),
      (compositeResult env img crop rot shape d).mime = "image/png") :=
  ⟨fun _ => rfl, by decide, fun _ _ _ _ _ _ => rfl⟩

/-- Claim C9: the composite is deterministic: generating again from the
state left by a first generate call recomputes the identical result, so
two composite calls on the same inputs agree pixel for pixel. -/
theorem c9_deterministic (env : CanvasEnv) (s : EditorState) :
    (createFinalImage env (createFinalImage env s)).finalImage =
      (createFinalImage env s).finalImage := by
  unfold createFinalImage
  rcases hi : s.imageSrc with _ | img <;>
    rcases hc : s.croppedAreaPixels with _ | crop <;>
      rcases hd : s.selectedDate with _ | d <;>
        simp [hi, hc, hd]

/-- A previously generated result, used to check that a later composite
call replaces it. -/
def prevResult : EncodedImage := ⟨"image/png", ⟨7, 7, fun _ => 0⟩⟩

/-- The editor state of the invalid-crop scenario of claim C1: an image
and a date are present, the crop rectangle is x 0, y 0, width 0,
height 50, and a previously generated 7 by 7 result is displayed. -/
def zeroCropState : EditorState :=
  ⟨some (fun _ => 1), some ⟨0, 0, 0, 50⟩, some ⟨2024, 2, 7⟩, CropShape.rect, 0, some prevResult⟩

/-- Counterexample to claim C1 as stated: on the crop rectangle of width
0 and height 50 the pipeline does not abort and does not leave the
previously generated result untouched — it overwrites it with a fresh
composite (whose canvas is 0 by 50). -/
theorem c1_counterexample :
    ¬ (createFinalImage envId zeroCropState).finalImage = zeroCropState.finalImage := by
  intro h
  have h2 := congrArg (fun o => Option.map (fun e => e.canvas.width) o) h
  simp only [zeroCropState, prevResult, createFinalImage, compositeResult, Option.map] at h2
  exact absurd (Option.some.inj h2) (by norm_num)

/-- Claim C1 amended: the pipeline aborts — leaving the whole state,
including any previously generated result, untouched — exactly when the
image, the crop selection or the date is missing; it performs no
positivity validation of the crop dimensions, so whenever all three
inputs are present (a zero-width crop rectangle included) it overwrites
the previous result with a fresh composite. -/
theorem c1_amended (env : CanvasEnv) (s : EditorState) :
    (s.imageSrc = none ∨ s.croppedAreaPixels = none ∨ s.selectedDate = none →
      createFinalImage env s = s) ∧
    (∀ img crop d, s.imageSrc = some img → s.croppedAreaPixels = some crop →
      s.selectedDate = some d →
      (createFinalImage env s).finalImage =
        some (compositeResult env img crop s.rotation s.cropShape d)) := by
  constructor
  · intro h
    unfold createFinalImage
    rcases hi : s.imageSrc with _ | img <;>
      rcases hc : s.croppedAreaPixels with _ | crop <;>
        rcases hd : s.selectedDate with _ | d <;>
          simp_all
  · intro img crop d hi hc hd
    unfold createFinalImage
    rw [hi, hc, hd]

/-- Witness for the amended C1 at the zero-width crop state: the new
composite replaces the previous result. -/
theorem c1_amended_witness :
    (createFinalImage envId zeroCropState).finalImage =
      some (compositeResult envId (fun _ => 1) ⟨0, 0, 0, 50⟩ zeroCropState.rotation
        zeroCropState.cropShape ⟨2024, 2, 7⟩) :=
  (c1_amended envId zeroCropState).2 (fun _ => 1) ⟨0, 0, 0, 50⟩ ⟨2024, 2, 7⟩ rfl rfl rfl

/-- Counterexample to claim C2 as stated: at output width 640, height
480 and measured text width 100, the label background box does not sit
padding pixels above the bottom canvas edge (its bottom edge lies
exactly on the canvas bottom, while padding is 24 there). -/
theorem c2_counterexample :
    ¬ ((labelLayout 640 480 100).boxX = padding 640 ∧
       480 - ((labelLayout 640 480 100).boxY + (labelLayout 640 480 100).boxH) = padding 640 ∧
       (labelLayout 640 480 100).boxH = fontSize 640 + 2 * padding 640 ∧
       (labelLayout 640 480 100).boxW = 100 + 2 * padding 640 ∧
       (labelLayout 640 480 100).textX = 2 * padding 640) := by
  intro h
  have h2 := h.2.1
  norm_num [labelLayout, padding, fontSize, min_def] at h2

/-- Claim C2 amended: the label background box starts padding pixels
from the left canvas edge, but its bottom edge coincides with the canvas
bottom edge (its top is at the canvas height minus font size minus twice
the padding); the box height is font size plus twice padding and its
width the measured text width plus twice padding; the label text is
drawn inset twice padding from the left canvas edge with its baseline
padding pixels above the canvas bottom, which places the baseline
between the box top and the box bottom. -/
theorem c2_amended (w h tw : ℚ) (hw : 0 ≤ w) :
    (labelLayout w h tw).boxX = padding w ∧
    (labelLayout w h tw).boxY + (labelLayout w h tw).boxH = h ∧
    (labelLayout w h tw).boxH = fontSize w + 2 * padding w ∧
    (labelLayout w h tw).boxW = tw + 2 * padding w ∧
    (labelLayout w h tw).textX = 2 * padding w ∧
    (labelLayout w h tw).textY = h - padding w ∧
    (labelLayout w h tw).boxY ≤ (labelLayout w h tw).textY - fontSize w ∧
    (labelLayout w h tw).textY ≤ (labelLayout w h tw).boxY + (labelLayout w h tw).boxH := by
  have hf : (0 : ℚ) ≤ fontSize w := le_min (by positivity) (by norm_num)
  have hp : (0 : ℚ) ≤ padding w := by
    unfold padding; nlinarith
  refine ⟨rfl, by unfold labelLayout; ring, by unfold labelLayout; ring,
    by unfold labelLayout; ring, by unfold labelLayout; ring, rfl, ?_, ?_⟩ <;>
    simp only [labelLayout] <;> linarith

/-- Witness for the amended C2 at output width 640, height 480 and text
width 100. -/
theorem c2_amended_witness :
    (labelLayout 640 480 100).boxX = padding 640 ∧
    (labelLayout 640 480 100).boxY + (labelLayout 640 480 100).boxH = 480 :=
  ⟨(c2_amended 640 480 100 (by norm_num)).1, (c2_amended 640 480 100 (by norm_num)).2.1⟩

/-- Claim C4: the circular mask zeroes alpha at every point outside the
clip disc and leaves the drawn alpha unchanged at every point inside it;
with positive canvas dimensions the corner at the origin lies outside
the disc, so its alpha after the mask (and before the label) is 0, and
the canvas center lies inside, so it keeps the alpha of the drawn
source. -/
theorem c4_circular_clip (env : CanvasEnv) (img : SourceImage) (crop : CroppedAreaPixels)
    (rot : ℚ) (hw : 0 < crop.width) (hh : 0 < crop.height) :
    preLabelAlpha env img crop rot CropShape.round (0, 0) = 0 ∧
    preLabelAlpha env img crop rot CropShape.round (crop.width / 2, crop.height / 2) =
      drawnLayer env img crop rot (crop.width / 2, crop.height / 2) ∧
    (∀ p : ℚ × ℚ, ¬ insideCircle crop.width crop.height p →
      preLabelAlpha env img crop rot CropShape.round p = 0) ∧
    (∀ p : ℚ × ℚ, insideCircle crop.width crop.height p →
      preLabelAlpha env img crop rot CropShape.round p = drawnLayer env img crop rot p) := by
  have houtside : ¬ insideCircle crop.width crop.height (0, 0) := by
    unfold insideCircle
    rcases le_total crop.width crop.height with hwh | hwh
    · rw [min_eq_left hwh]; intro hc; nlinarith
    · rw [min_eq_right hwh]; intro hc; nlinarith
  have hinside : insideCircle crop.width crop.height (crop.width / 2, crop.height / 2) := by
    unfold insideCircle
    have : ((crop.width / 2 : ℚ) - crop.width / 2) ^ 2 +
        ((crop.height / 2 : ℚ) - crop.height / 2) ^ 2 = 0 := by ring
    rw [this]; positivity
  refine ⟨?_, ?_, fun p hp => ?_, fun p hp => ?_⟩ <;>
    simp only [preLabelAlpha, maskStage]
  · exact if_neg houtside
  · exact if_pos hinside
  · exact if_neg hp
  · exact if_pos hp

/-- Witness for C4 on a 2 by 2 canvas: the corner is transparent after
the mask and the center keeps the drawn alpha. -/
theorem c4_circular_clip_witness :
    preLabelAlpha envId (fun _ => 1) ⟨0, 0, 2, 2⟩ 0 CropShape.round (0, 0) = 0 ∧
    preLabelAlpha envId (fun _ => 1) ⟨0, 0, 2, 2⟩ 0 CropShape.round (2 / 2, 2 / 2) =
      drawnLayer envId (fun _ => 1) ⟨0, 0, 2, 2⟩ 0 (2 / 2, 2 / 2) :=
  ⟨(c4_circular_clip envId (fun _ => 1) ⟨0, 0, 2, 2⟩ 0 (by norm_num) (by norm_num)).1,
   (c4_circular_clip envId (fun _ => 1) ⟨0, 0, 2, 2⟩ 0 (by norm_num) (by norm_num)).2.1⟩

/-- Transform primitives issued on the 2D context; `rotateDeg θ` stands
for the source call of `ctx.rotate` with θ converted from degrees to
radians, rotating about the current origin. -/
inductive Prim where
  | translate : ℚ → ℚ → Prim
  | rotateDeg : ℚ → Prim
deriving DecidableEq

/-- A transform is the list of primitives issued since the last save, in
issue order. -/
abbrev Xform := List Prim

/-- Drawing commands of one composite call, each recording the transform
in effect when it was issued. -/
inductive Cmd where
  | drawImage : ℚ → ℚ → ℚ → ℚ → ℚ → ℚ → ℚ → ℚ → Xform → Cmd
  | maskCircle : ℚ → ℚ → ℚ → Xform → Cmd
  | fillRect : ℚ → ℚ → ℚ → ℚ → Xform → Cmd
  | fillText : String → ℚ → ℚ → Xform → Cmd
deriving DecidableEq

/-- The transform recorded on a command. -/
def Cmd.xform : Cmd → Xform
  | .drawImage _ _ _ _ _ _ _ _ t => t
  | .maskCircle _ _ _ t => t
  | .fillRect _ _ _ _ t => t
  | .fillText _ _ _ t => t

/-- Whether a command is the image draw. -/
def Cmd.isDraw : Cmd → Bool
  | .drawImage _ _ _ _ _ _ _ _ _ => true
  | _ => false

/-- Source rectangle of an image draw command. -/
def Cmd.srcRect : Cmd → Option (ℚ × ℚ × ℚ × ℚ)
  | .drawImage sx sy sw sh _ _ _ _ _ => some (sx, sy, sw, sh)
  | _ => none

/-- The rotation transform issued by the source before the draw:
translate the canvas center to the origin, rotate, translate back.  The
surrounding save and restore scope it to the draw alone. -/
def rotXform (w h rot : ℚ) : Xform :=
  [Prim.translate (w / 2) (h / 2), Prim.rotateDeg rot, Prim.translate (-(w / 2)) (-(h / 2))]

/-- The command trace of one composite call, in issue order: the rotated
draw of the crop, the circular mask when the shape is round, then the
label box and the label text under the restored identity transform. -/
def compositeTrace (crop : CroppedAreaPixels) (rot : ℚ) (shape : CropShape) (d : JSDate)
    (tw : ℚ) : List Cmd :=
  let w := crop.width
  let h := crop.height
  let L := labelLayout w h tw
  [Cmd.drawImage crop.x crop.y w h 0 0 w h (rotXform w h rot)]
    ++ (if shape = CropShape.round then [Cmd.maskCircle (w / 2) (h / 2) (min w h / 2) []] else [])
    ++ [Cmd.fillRect L.boxX L.boxY L.boxW L.boxH [], Cmd.fillText (formatDate d) L.textX L.textY []]

/-- Action of a transform primitive on a point, given an interpretation
of the degree rotation about the origin. -/
def applyPrim (rotI : ℚ → ℚ × ℚ → ℚ × ℚ) : Prim → ℚ × ℚ → ℚ × ℚ
  | .translate dx dy, p => (p.1 + dx, p.2 + dy)
  | .rotateDeg θ, p => rotI θ p

/-- Action of a transform on a point: the last issued primitive applies
first, as on a canvas context. -/
def applyXform (rotI : ℚ → ℚ × ℚ → ℚ × ℚ) (t : Xform) (p : ℚ × ℚ) : ℚ × ℚ :=
  t.foldr (applyPrim rotI) p

/-- Claim C7: in the trace of a composite call, the image draw carries
exactly the translate-center, rotate, translate-back transform and its
source rectangle is the crop rectangle itself, untransformed; every
other command — circular mask, label box, label text — carries the empty
(identity) transform, so the label is axis-aligned and never rotated;
the draw comes first; and under every interpretation of rotation that
fixes the origin, the draw transform fixes the canvas center, so the
rotation pivots about the center of the output canvas. -/
theorem c7_rotation_scoped (crop : CroppedAreaPixels) (rot : ℚ) (shape : CropShape)
    (d : JSDate) (tw : ℚ) :
    (∀ c ∈ compositeTrace crop rot shape d tw, c.isDraw = true →
      c.xform = rotXform crop.width crop.height rot ∧
      c.srcRect = some (crop.x, crop.y, crop.width, crop.height)) ∧
    (∀ c ∈ compositeTrace crop rot shape d tw, c.isDraw = false → c.xform = []) ∧
    (compositeTrace crop rot shape d tw).head?.map Cmd.isDraw = some true ∧
    (∀ rotI : ℚ → ℚ × ℚ → ℚ × ℚ, (∀ θ, rotI θ (0, 0) = (0, 0)) →
      applyXform rotI (rotXform crop.width crop.height rot) (crop.width / 2, crop.height / 2) =
        (crop.width / 2, crop.height / 2)) := by
  refine ⟨?_, ?_, ?_, ?_⟩
  · intro c hc hdraw
    cases shape with
    | rect =>
      simp only [compositeTrace] at hc
      simp at hc
      rcases hc with rfl | rfl | rfl <;> simp_all [Cmd.isDraw, Cmd.xform, Cmd.srcRect]
    | round =>
      simp only [compositeTrace] at hc
      simp at hc
      rcases hc with rfl | rfl | rfl | rfl <;> simp_all [Cmd.isDraw, Cmd.xform, Cmd.srcRect]
  · intro c hc hdraw
    cases shape with
    | rect =>
      simp only [compositeTrace] at hc
      simp at hc
      rcases hc with rfl | rfl | rfl <;> simp_all [Cmd.isDraw, Cmd.xform]
    | round =>
      simp only [compositeTrace] at hc
      simp at hc
      rcases hc with rfl | rfl | rfl | rfl <;> simp_all [Cmd.isDraw, Cmd.xform]
  · rcases shape <;> simp [compositeTrace, Cmd.isDraw]
  · intro rotI hrot
    have h0 : (crop.width / 2 + -(crop.width / 2), crop.height / 2 + -(crop.height / 2)) =
        ((0 : ℚ), (0 : ℚ)) := by
      norm_num
    simp only [applyXform, rotXform, List.foldr, applyPrim, h0, hrot]
    norm_num

/-- Witness for C7 on a concrete 640 by 480 crop, rotation 30 degrees,
rectangular shape, text width 100: the draw carries the center rotation
transform with the untouched crop source rectangle, the label text
carries the identity transform, and the identity interpretation of
rotation fixes the canvas center. -/
theorem c7_rotation_scoped_witness :
    ((Cmd.drawImage 1 2 640 480 0 0 640 480 (rotXform 640 480 30)).xform =
        rotXform 640 480 30 ∧
      (Cmd.drawImage 1 2 640 480 0 0 640 480 (rotXform 640 480 30)).srcRect =
        some (1, 2, 640, 480)) ∧
    (Cmd.fillText (formatDate ⟨2024, 2, 7⟩) 48 456 []).xform = [] ∧
    (compositeTrace ⟨1, 2, 640, 480⟩ 30 CropShape.rect ⟨2024, 2, 7⟩ 100).head?.map Cmd.isDraw =
      some true ∧
    applyXform (fun _ p => p) (rotXform 640 480 30) (640 / 2, 480 / 2) = (640 / 2, 480 / 2) := by
  have h := c7_rotation_scoped ⟨1, 2, 640, 480⟩ 30 CropShape.rect ⟨2024, 2, 7⟩ 100
  refine ⟨h.1 _ ?_ rfl, h.2.1 _ ?_ rfl, h.2.2.1, h.2.2.2 (fun _ p => p) (fun _ => rfl)⟩
  · simp [compositeTrace]
  · simp only [compositeTrace]
    norm_num [labelLayout, padding, fontSize, min_def]

end PhotoEdit
